import Mathlib

/-!
# Verification of the driving-school backend

A shallow embedding of the Express/Mongoose backend of the
`Driving_School_BackEnd` repository, together with proofs about its
session-capacity and enrollment bookkeeping logic, its authentication
token issuance, and its role gating.

Modelling conventions:

* The Mongo document store is a `Store` record of lists, one list per
  collection.  `Model.findOne({k: v})` becomes `List.find?` (first match in
  insertion order), `findOneAndUpdate` becomes `updateFirst` (rewrite the
  first match), `findOneAndDelete` / `findByIdAndDelete` become
  `List.eraseP` (remove the first match), and `new Model(...).save()`
  appends to the list.
* JavaScript numbers that reach the handlers are modelled as `Int`
  (Mongo `$inc` may drive a counter below zero); absent request-body
  fields are `Option.none`, and JS truthiness of a string/number option
  is `truthyS` / `truthyI` (`undefined`, `""` and `0` are falsy).
* Mongoose document ids (`_id`) for enrollments are modelled by a
  monotone `nextEid` counter in the store; `new Date()` is passed in as
  an explicit `now` argument.
* `bcrypt` hashing is modelled as an injective tagging function: no
  claim depends on actual hash values, only on which string is stored
  and compared.
* Each `res.status(..).json({success, message, ...})` exit point of a
  handler becomes a named `Resp` constant carrying the exact status code
  and message string of the source.
-/

namespace DrivingSchool

/-- JSON-like primitive values, used for signed-token payloads. -/
inductive JVal where
  | str (s : String)
  | num (n : Int)
  | bool (b : Bool)
deriving DecidableEq, Repr

/-- JS `String.prototype.padStart width c`: left-pad to at least `width`. -/
def padStart (width : Nat) (c : Char) (s : String) : String :=
  String.mk (List.replicate (width - s.length) c) ++ s

/-- JS truthiness of an optional string: `undefined` and `""` are falsy. -/
def truthyS : Option String → Bool
  | none => false
  | some s => s != ""

/-- JS truthiness of an optional number: `undefined` and `0` are falsy. -/
def truthyI : Option Int → Bool
  | none => false
  | some n => n != 0

/-- A user document (fields as used by `authController` / `enrollPTSController`). -/
structure User where
  userID : String
  firstName : Option String := none
  lastName : Option String := none
  username : String
  password : String
  email : String
  phoneNumber : Option String := none
  address : Option String := none
  gender : Option String := none
  isStudent : Bool
deriving DecidableEq, Repr

/-- An instructor document (fields as used by `instructorController`). -/
structure Instructor where
  InstructorID : String
  InstructorName : String
  email : String
  InstructorLocation : Option String := none
  InstructorExperience : Option Int := none
  password : String
  isInstructor : Bool := true
deriving DecidableEq, Repr

/-- A vehicle document; only its key is consulted by the modelled handlers. -/
structure Vehicle where
  vehicleID : String
deriving DecidableEq, Repr

/-- A physical-training session document (`physicalTrainingController`). -/
structure Session where
  sessionID : String
  date : String
  time : String
  location : String
  vehicleID : String
  instructorID : String
  maxCount : Int
  currentCount : Int
  status : String
  instructorQualification : Option String := none
deriving DecidableEq, Repr

/-- An enrollment ledger row (`EnrollPTS` model). `eid` models the Mongo `_id`. -/
structure Enrollment where
  eid : Nat
  userID : String
  sessionID : String
  status : String
  date : Int
deriving DecidableEq, Repr

/-- A document of the `Counter` collection used to mint session identifiers. -/
structure Counter where
  name : String
  value : Int
deriving DecidableEq, Repr

/-- The whole document store, one list per collection, in insertion order. -/
structure Store where
  users : List User := []
  instructors : List Instructor := []
  vehicles : List Vehicle := []
  sessions : List Session := []
  enrollments : List Enrollment := []
  counters : List Counter := []
  nextEid : Nat := 0
deriving DecidableEq, Repr

/-- One JSON response envelope: HTTP status, `success` flag and message. -/
structure Resp where
  status : Nat
  success : Bool
  message : String
deriving DecidableEq, Repr

/-- Replace the first element satisfying `p` by its image under `f`
(the shallow rendering of Mongo `findOneAndUpdate`). -/
def updateFirst (p : α → Bool) (f : α → α) : List α → List α
  | [] => []
  | x :: xs => if p x then f x :: xs else x :: updateFirst p f xs

/-- `PhysicalTraining.findOne({sessionID})`. -/
def findSession (σ : Store) (sid : String) : Option Session :=
  σ.sessions.find? (fun s => s.sessionID == sid)

/-- `User.findOne({userID})`. -/
def findUser (σ : Store) (uid : String) : Option User :=
  σ.users.find? (fun u => u.userID == uid)

/-- `User.findOne({email})`. -/
def findUserByEmail (σ : Store) (email : String) : Option User :=
  σ.users.find? (fun u => u.email == email)

/-- `Vehicle.findOne({vehicleID})`. -/
def findVehicle (σ : Store) (vid : String) : Option Vehicle :=
  σ.vehicles.find? (fun v => v.vehicleID == vid)

/-- `Instructor.findOne({InstructorID})`. -/
def findInstr (σ : Store) (iid : String) : Option Instructor :=
  σ.instructors.find? (fun i => i.InstructorID == iid)

/-- `Instructor.findOne({email})`. -/
def findInstrByEmail (σ : Store) (email : String) : Option Instructor :=
  σ.instructors.find? (fun i => i.email == email)

/-- `EnrollPTS.findOne({userID, sessionID})`. -/
def findEnrollmentPair (σ : Store) (uid sid : String) : Option Enrollment :=
  σ.enrollments.find? (fun e => e.userID == uid && e.sessionID == sid)

/-- `EnrollPTS.findById(id)`. -/
def findEnrollmentById (σ : Store) (k : Nat) : Option Enrollment :=
  σ.enrollments.find? (fun e => e.eid == k)

/-- `Counter.findOne({name})`. -/
def findCounter (σ : Store) (name : String) : Option Counter :=
  σ.counters.find? (fun c => c.name == name)

/-! ## Response constants (status codes and messages copied from the source) -/

def respSessionIdRequired : Resp := ⟨400, false, "Session ID is required"⟩

def respUserNotFound : Resp := ⟨404, false, "User not found"⟩

def respPTNotFound : Resp := ⟨404, false, "Physical training session not found"⟩

def respNotPending : Resp := ⟨400, false, "Cannot enroll in a completed session"⟩

def respSessionFull : Resp := ⟨400, false, "Session is full"⟩

def respAlreadyEnrolled : Resp := ⟨400, false, "You are already enrolled in this session"⟩

def respEnrolled : Resp := ⟨201, true, "Successfully enrolled in physical training session"⟩

def respEnrollmentNotFound : Resp := ⟨404, false, "Enrollment not found"⟩

def respAccessDenied : Resp := ⟨403, false, "Access denied"⟩

def respCancelCompleted : Resp := ⟨400, false, "Cannot cancel enrollment for a completed session"⟩

def respCanceled : Resp := ⟨200, true, "Enrollment canceled successfully"⟩

def respEnrollStatusInvalid : Resp := ⟨400, false, "Valid status (pending/completed/absent) is required"⟩

def respEnrollStatusUpdated (st : String) : Resp :=
  ⟨200, true, "Enrollment status updated to \"" ++ st ++ "\""⟩

def respAllRequired : Resp := ⟨400, false, "All required fields must be provided"⟩

def respVehicleNotFound : Resp := ⟨404, false, "Vehicle not found"⟩

def respInstructorNotFound : Resp := ⟨404, false, "Instructor not found"⟩

def respPTCreated : Resp := ⟨201, true, "Physical training session created successfully"⟩

def respAtLeastOne : Resp := ⟨400, false, "At least one field is required to update"⟩

def respStatusInvalid : Resp := ⟨400, false, "Status must be either \"pending\" or \"completed\""⟩

def respCountExceeds : Resp := ⟨400, false, "Current count cannot exceed max count"⟩

def respPTUpdated : Resp := ⟨200, true, "Physical training session updated successfully"⟩

def respCannotDelete : Resp := ⟨400, false, "Cannot delete session with enrolled users"⟩

def respPTDeleted : Resp := ⟨200, true, "Physical training session deleted successfully"⟩

def respSessionStatusInvalid : Resp := ⟨400, false, "Valid status (pending/completed) is required"⟩

def respSessionStatusUpdated (st : String) : Resp :=
  ⟨200, true, "Session status updated to \"" ++ st ++ "\""⟩

def respAuthRequired : Resp := ⟨401, false, "Authentication required. Please login."⟩

def respInvalidToken : Resp := ⟨403, false, "Invalid or expired token. Please login again."⟩

def respStudentRequired : Resp := ⟨403, false, "Access denied. Student role required."⟩

def respUserExists : Resp := ⟨400, false, "User with this email or username already exists"⟩

def respRegistered : Resp := ⟨201, true, "User registered successfully"⟩

def respRegisterFailed : Resp := ⟨500, false, "Registration failed"⟩

def respEmailPwRequired : Resp := ⟨400, false, "Email and password are required"⟩

def respInvalidCreds : Resp := ⟨401, false, "Invalid credentials"⟩

def respLoginSuccessful : Resp := ⟨200, true, "Login successful"⟩

/-! ## Session registry (`physicalTrainingController.js`) -/

/-- Request body of `POST /api/physical-training`. -/
structure CreateBody where
  date : Option String := none
  time : Option String := none
  location : Option String := none
  vehicleID : Option String := none
  instructorID : Option String := none
  maxCount : Option Int := none
  instructorQualification : Option String := none
deriving DecidableEq, Repr

/-- `getNextSequenceValue`: atomically increment (upserting at 1) the named
counter and render the new value as `PT` + the value padded to 4 digits. -/
def getNextSequenceValue (name : String) (σ : Store) : String × Store :=
  match findCounter σ name with
  | some c =>
      ("PT" ++ padStart 4 '0' (toString (c.value + 1)),
       { σ with counters :=
           updateFirst (fun d => d.name == name) (fun d => { d with value := d.value + 1 }) σ.counters })
  | none =>
      ("PT" ++ padStart 4 '0' (toString (1 : Int)),
       { σ with counters := σ.counters ++ [⟨name, 1⟩] })

/-- The numeric value the session-id counter takes after the next increment. -/
def nextCounterValue (σ : Store) : Int :=
  match findCounter σ "sessionID" with
  | some c => c.value + 1
  | none => 1

/-- `createPhysicalTraining` (`POST /api/physical-training`). -/
def createPhysicalTraining (body : CreateBody) (σ : Store) : Resp × Store :=
  match body.date, body.time, body.location, body.vehicleID, body.instructorID, body.maxCount with
  | some date, some time, some location, some vehicleID, some instructorID, some maxCount =>
    if date == "" || time == "" || location == "" || vehicleID == "" ||
        instructorID == "" || maxCount == 0 then
      (respAllRequired, σ)
    else
      match findVehicle σ vehicleID with
      | none => (respVehicleNotFound, σ)
      | some _ =>
        match findInstr σ instructorID with
        | none => (respInstructorNotFound, σ)
        | some _ =>
          let mint := getNextSequenceValue "sessionID" σ
          let newSession : Session :=
            { sessionID := mint.1, date, time, location, vehicleID, instructorID,
              maxCount, currentCount := 0, status := "pending",
              instructorQualification := body.instructorQualification }
          (respPTCreated, { mint.2 with sessions := mint.2.sessions ++ [newSession] })
  | _, _, _, _, _, _ => (respAllRequired, σ)

/-- Request body of `PUT /api/physical-training/:id`. -/
structure UpdateBody where
  date : Option String := none
  time : Option String := none
  location : Option String := none
  vehicleID : Option String := none
  instructorID : Option String := none
  maxCount : Option Int := none
  status : Option String := none
  currentCount : Option Int := none
  instructorQualification : Option String := none
deriving DecidableEq, Repr

/-- `if (field) updateData.field = field` for a mandatory string field. -/
def updStr (v : Option String) (old : String) : String :=
  match v with
  | some s => if s == "" then old else s
  | none => old

/-- `if (field) updateData.field = field` for an optional string field. -/
def updOptStr (v : Option String) (old : Option String) : Option String :=
  match v with
  | some s => if s == "" then old else some s
  | none => old

/-- The `updateData` object of `updatePhysicalTraining` applied to a session. -/
def applySessionUpdate (body : UpdateBody) (s : Session) : Session :=
  { s with
    date := updStr body.date s.date
    time := updStr body.time s.time
    location := updStr body.location s.location
    vehicleID := updStr body.vehicleID s.vehicleID
    instructorID := updStr body.instructorID s.instructorID
    maxCount := body.maxCount.getD s.maxCount
    status := updStr body.status s.status
    currentCount := body.currentCount.getD s.currentCount
    instructorQualification := updOptStr body.instructorQualification s.instructorQualification }

/-- `updatePhysicalTraining` (`PUT /api/physical-training/:id`). -/
def updatePhysicalTraining (sessionID : String) (body : UpdateBody) (σ : Store) : Resp × Store :=
  if !truthyS body.date && !truthyS body.time && !truthyS body.location &&
      !truthyS body.vehicleID && !truthyS body.instructorID && body.maxCount == none &&
      !truthyS body.status && body.currentCount == none &&
      !truthyS body.instructorQualification then
    (respAtLeastOne, σ)
  else
    match findSession σ sessionID with
    | none => (respPTNotFound, σ)
    | some existingSession =>
      if truthyS body.vehicleID && (findVehicle σ (body.vehicleID.getD "")).isNone then
        (respVehicleNotFound, σ)
      else if truthyS body.instructorID && (findInstr σ (body.instructorID.getD "")).isNone then
        (respInstructorNotFound, σ)
      else if truthyS body.status &&
          !(body.status == some "pending" || body.status == some "completed") then
        (respStatusInvalid, σ)
      else
        match body.currentCount with
        | some cc =>
          if cc > body.maxCount.getD existingSession.maxCount then
            (respCountExceeds, σ)
          else
            (respPTUpdated,
             { σ with sessions :=
                 updateFirst (fun s => s.sessionID == sessionID) (applySessionUpdate body) σ.sessions })
        | none =>
          (respPTUpdated,
           { σ with sessions :=
               updateFirst (fun s => s.sessionID == sessionID) (applySessionUpdate body) σ.sessions })

/-- `deletePhysicalTraining` (`DELETE /api/physical-training/:id`). -/
def deletePhysicalTraining (sessionID : String) (σ : Store) : Resp × Store :=
  match findSession σ sessionID with
  | none => (respPTNotFound, σ)
  | some session =>
    if session.currentCount > 0 then
      (respCannotDelete, σ)
    else
      (respPTDeleted, { σ with sessions := σ.sessions.eraseP (fun s => s.sessionID == sessionID) })

/-- `updateSessionStatus` (`PATCH /api/physical-training/:id/status`). -/
def updateSessionStatus (sessionID : String) (status : Option String) (σ : Store) : Resp × Store :=
  match status with
  | some st =>
    if st == "pending" || st == "completed" then
      match findSession σ sessionID with
      | none => (respPTNotFound, σ)
      | some _ =>
        (respSessionStatusUpdated st,
         { σ with sessions :=
             updateFirst (fun s => s.sessionID == sessionID) (fun s => { s with status := st }) σ.sessions })
    else (respSessionStatusInvalid, σ)
  | none => (respSessionStatusInvalid, σ)

/-! ## Enrollment ledger (`enrollPTSController.js`) -/

/-- `enrollStudent` (`POST /api/enroll-pts`); `uid` is `req.user.id`,
`sessionID?` the body field, `now` the timestamp taken by `new Date()`. -/
def enrollStudent (uid : String) (sessionID? : Option String) (now : Int) (σ : Store) :
    Resp × Store :=
  match sessionID? with
  | none => (respSessionIdRequired, σ)
  | some sid =>
    if sid == "" then (respSessionIdRequired, σ)
    else
      match findUser σ uid with
      | none => (respUserNotFound, σ)
      | some _ =>
        match findSession σ sid with
        | none => (respPTNotFound, σ)
        | some session =>
          if session.status != "pending" then (respNotPending, σ)
          else if session.currentCount >= session.maxCount then (respSessionFull, σ)
          else if (findEnrollmentPair σ uid sid).isSome then (respAlreadyEnrolled, σ)
          else
            let enrollment : Enrollment :=
              { eid := σ.nextEid, userID := uid, sessionID := sid, status := "pending", date := now }
            (respEnrolled,
             { σ with
                 enrollments := σ.enrollments ++ [enrollment]
                 sessions :=
                   updateFirst (fun s => s.sessionID == sid)
                     (fun s => { s with currentCount := s.currentCount + 1 }) σ.sessions
                 nextEid := σ.nextEid + 1 })

/-- The verified token payload as the role middleware sees it
(`req.user`); absent role flags and JS-falsy flags coincide. -/
structure ReqUser where
  id : String
  isStudent : Bool := false
  isInstructor : Bool := false
  isAdmin : Bool := false
deriving DecidableEq, Repr

/-- `updateEnrollmentStatus` (`PATCH /api/enroll-pts/:id`). -/
def updateEnrollmentStatus (eid : Nat) (status : Option String) (σ : Store) : Resp × Store :=
  match status with
  | some st =>
    if st == "pending" || st == "completed" || st == "absent" then
      match findEnrollmentById σ eid with
      | none => (respEnrollmentNotFound, σ)
      | some _ =>
        (respEnrollStatusUpdated st,
         { σ with enrollments :=
             updateFirst (fun e => e.eid == eid) (fun e => { e with status := st }) σ.enrollments })
    else (respEnrollStatusInvalid, σ)
  | none => (respEnrollStatusInvalid, σ)

/-- `cancelEnrollment` (`DELETE /api/enroll-pts/:id`). -/
def cancelEnrollment (caller : ReqUser) (eid : Nat) (σ : Store) : Resp × Store :=
  match findEnrollmentById σ eid with
  | none => (respEnrollmentNotFound, σ)
  | some enrollment =>
    if caller.id != enrollment.userID && !caller.isAdmin then (respAccessDenied, σ)
    else
      match findSession σ enrollment.sessionID with
      | some session =>
        if session.status == "completed" then (respCancelCompleted, σ)
        else
          (respCanceled,
           { σ with
               enrollments := σ.enrollments.eraseP (fun e => e.eid == eid)
               sessions :=
                 updateFirst (fun s => s.sessionID == enrollment.sessionID)
                   (fun s => { s with currentCount := s.currentCount - 1 }) σ.sessions })
      | none =>
        (respCanceled, { σ with enrollments := σ.enrollments.eraseP (fun e => e.eid == eid) })

/-! ## Authentication and tokens (`authController.js`, `instructorController.js`,
`authMiddleware.js`, `checkRole.js`) -/

/-- A signed bearer token: its payload object and its `expiresIn` option. -/
structure Token where
  payload : List (String × JVal)
  expiresIn : String
deriving DecidableEq, Repr

/-- bcrypt hashing, modelled as an injective tagging function. -/
def hashPassword (pw : String) : String := "bcrypt$" ++ pw

/-- `bcrypt.compare(pw, stored)` for stores produced by `hashPassword`. -/
def bcryptCompare (pw stored : String) : Bool := hashPassword pw == stored

/-- Request body of `POST /api/auth/register`.  The fields the claims
quantify over (`email`, `username`) are modelled as present. -/
structure RegisterBody where
  firstName : Option String := none
  lastName : Option String := none
  username : String
  password : Option String := none
  email : String
  phoneNumber : Option String := none
  address : Option String := none
  gender : Option String := none
  isStudent : Option Bool := none
deriving DecidableEq, Repr

/-- `register` (`POST /api/auth/register`); `newUid` models `uuidv4()`.
`bcrypt.hash(undefined)` throws, which the handler's catch turns into the
500 envelope. -/
def register (body : RegisterBody) (newUid : String) (σ : Store) :
    Resp × Store × Option Token :=
  if (findUserByEmail σ body.email).isSome then (respUserExists, σ, none)
  else
    match body.password with
    | none => (respRegisterFailed, σ, none)
    | some pw =>
      let newUser : User :=
        { userID := newUid, firstName := body.firstName, lastName := body.lastName,
          username := body.username, password := hashPassword pw, email := body.email,
          phoneNumber := body.phoneNumber, address := body.address, gender := body.gender,
          isStudent := body.isStudent.getD true }
      let token : Token :=
        { payload := [("id", .str newUser.userID), ("email", .str newUser.email),
                      ("username", .str newUser.username)],
          expiresIn := "24h" }
      (respRegistered, { σ with users := σ.users ++ [newUser] }, some token)

/-- `login` (`POST /api/auth/login`). -/
def login (email? password? : Option String) (σ : Store) : Resp × Option Token :=
  if !truthyS email? || !truthyS password? then (respEmailPwRequired, none)
  else
    match findUserByEmail σ (email?.getD "") with
    | none => (respInvalidCreds, none)
    | some user =>
      if !bcryptCompare (password?.getD "") user.password then (respInvalidCreds, none)
      else
        (respLoginSuccessful,
         some { payload := [("id", .str user.userID), ("email", .str user.email),
                            ("username", .str user.username)],
                expiresIn := "24h" })

/-- `instructorLogin` (`POST /api/instructors/login`). -/
def instructorLogin (email? password? : Option String) (σ : Store) : Resp × Option Token :=
  if !truthyS email? || !truthyS password? then (respEmailPwRequired, none)
  else
    match findInstrByEmail σ (email?.getD "") with
    | none => (respInvalidCreds, none)
    | some instructor =>
      if !bcryptCompare (password?.getD "") instructor.password then (respInvalidCreds, none)
      else
        (respLoginSuccessful,
         some { payload := [("id", .str instructor.InstructorID),
                            ("email", .str instructor.email),
                            ("name", .str instructor.InstructorName),
                            ("isInstructor", .bool true)],
                expiresIn := "24h" })

/-- The bearer credential attached to a request, as `authenticate` sees it. -/
inductive Cred where
  | missing
  | invalid
  | valid (u : ReqUser)
deriving DecidableEq, Repr

/-- `authenticate` middleware: 401 without a token, 403 on a bad token,
otherwise `req.user` is the verified payload. -/
def authenticate : Cred → Except Resp ReqUser
  | .missing => .error respAuthRequired
  | .invalid => .error respInvalidToken
  | .valid u => .ok u

/-- JS truthiness of a payload field looked up by the role middleware. -/
def truthyJ : Option JVal → Bool
  | some (.bool b) => b
  | some (.str s) => s != ""
  | some (.num n) => n != 0
  | none => false

/-- How a verified token payload decodes into `req.user` for the role gates. -/
def toReqUser (t : Token) : ReqUser :=
  { id := match t.payload.lookup "id" with | some (.str s) => s | _ => "",
    isStudent := truthyJ (t.payload.lookup "isStudent"),
    isInstructor := truthyJ (t.payload.lookup "isInstructor"),
    isAdmin := truthyJ (t.payload.lookup "isAdmin") }

/-- `router.patch('/:id', authenticate, updateEnrollmentStatus)` from
`enrollPTSRoutes.js`: no role middleware is installed on this route. -/
def patchEnrollmentRoute (cred : Cred) (eid : Nat) (status : Option String) (σ : Store) :
    Resp × Store :=
  match authenticate cred with
  | .error r => (r, σ)
  | .ok _ => updateEnrollmentStatus eid status σ

/-- `router.post('/', authenticate, isStudent, enrollStudent)` from
`enrollPTSRoutes.js`: the student role gate guards enrollment. -/
def postEnrollRoute (cred : Cred) (sessionID? : Option String) (now : Int) (σ : Store) :
    Resp × Store :=
  match authenticate cred with
  | .error r => (r, σ)
  | .ok u =>
    if u.isStudent then enrollStudent u.id sessionID? now σ
    else (respStudentRequired, σ)

/-! ## Bookkeeping for the capacity invariant -/

/-- Number of enrollment ledger rows referencing a session. -/
def countRows (E : List Enrollment) (sid : String) : Nat :=
  (E.filter (fun e => e.sessionID == sid)).length

/-- The strengthened store invariant for the capacity claim: sessions have
nonnegative capacity and a `currentCount` within bounds, the first session
matching an id (the one every Mongo query and update touches) counts exactly
the ledger rows that reference that id, and every ledger row references a
findable session. -/
def Inv (σ : Store) : Prop :=
  (∀ s ∈ σ.sessions, 0 ≤ s.maxCount) ∧
  (∀ s ∈ σ.sessions, 0 ≤ s.currentCount ∧ s.currentCount ≤ s.maxCount) ∧
  (∀ sid s, findSession σ sid = some s → s.currentCount = (countRows σ.enrollments sid : Int)) ∧
  (∀ e ∈ σ.enrollments, ∃ s, findSession σ e.sessionID = some s)

/-- Stores reachable by the operations named in the capacity claim, starting
from any store holding no sessions and no enrollments.  Two side conditions
are required (the counterexample below shows the claim fails without them):
session creation must not be fed a negative `maxCount`, and the field-update
operation must not supply `currentCount` or `maxCount` directly. -/
inductive Reach : Store → Prop where
  | init (σ : Store) (hs : σ.sessions = []) (he : σ.enrollments = []) : Reach σ
  | createStep (σ : Store) (body : CreateBody) (h : Reach σ)
      (hm : ∀ m, body.maxCount = some m → 0 ≤ m) :
      Reach (createPhysicalTraining body σ).2
  | updateStep (σ : Store) (sid : String) (body : UpdateBody) (h : Reach σ)
      (hcc : body.currentCount = none) (hmc : body.maxCount = none) :
      Reach (updatePhysicalTraining sid body σ).2
  | statusStep (σ : Store) (sid : String) (st : Option String) (h : Reach σ) :
      Reach (updateSessionStatus sid st σ).2
  | enrollStep (σ : Store) (uid : String) (sid? : Option String) (now : Int) (h : Reach σ) :
      Reach (enrollStudent uid sid? now σ).2
  | cancelStep (σ : Store) (caller : ReqUser) (k : Nat) (h : Reach σ) :
      Reach (cancelEnrollment caller k σ).2

/-! ## Concrete fixtures used by counterexamples and witnesses -/

def veh1 : Vehicle := ⟨"v1"⟩

def instr1 : Instructor :=
  { InstructorID := "i1", InstructorName := "Ina", email := "ina@ex.com",
    password := hashPassword "pw2" }

/-- A store holding one vehicle and one instructor and nothing else. -/
def cexBase : Store := { vehicles := [veh1], instructors := [instr1] }

def cexCreateBody : CreateBody :=
  { date := some "2025-01-01", time := some "09:00", location := some "Colombo",
    vehicleID := some "v1", instructorID := some "i1", maxCount := some 1 }

/-- A field update supplying `currentCount = -1`: the handler's only guard is
`currentCount > maxCount`, which `-1` passes. -/
def cexUpdateBody : UpdateBody := { currentCount := some (-1) }

/-- Create a session (maxCount 1), then update it with `currentCount = -1`. -/
def cexState : Store :=
  (updatePhysicalTraining "PT0001" cexUpdateBody
    (createPhysicalTraining cexCreateBody cexBase).2).2

/-- The session the restricted create step of the C1 witness produces. -/
def cexSess : Session :=
  { sessionID := "PT0001", date := "2025-01-01", time := "09:00", location := "Colombo",
    vehicleID := "v1", instructorID := "i1", maxCount := 1, currentCount := 0,
    status := "pending" }

def sessFull : Session :=
  { sessionID := "PT0001", date := "2025-01-01", time := "09:00", location := "Colombo",
    vehicleID := "v1", instructorID := "i1", maxCount := 1, currentCount := 1,
    status := "pending" }

/-- A full pending session and no user documents at all. -/
def store2 : Store := { sessions := [sessFull] }

def user3 : User :=
  { userID := "u1", username := "kay", password := hashPassword "pw", email := "kay@ex.com",
    isStudent := true }

def enr3 : Enrollment :=
  { eid := 0, userID := "u1", sessionID := "PT0001", status := "pending", date := 0 }

/-- `u1` is enrolled in `PT0001`, which that enrollment filled (`maxCount 1`). -/
def store3 : Store :=
  { users := [user3], sessions := [sessFull], enrollments := [enr3], nextEid := 1 }

def sess3b : Session := { sessFull with maxCount := 2 }

/-- `u1` is enrolled in `PT0001`, which still has a free slot (`maxCount 2`). -/
def store3b : Store :=
  { users := [user3], sessions := [sess3b], enrollments := [enr3], nextEid := 1 }

def sess4 : Session := { sessFull with maxCount := 3, currentCount := 1 }

/-- `u1` is enrolled in pending session `PT0001` with `currentCount 1`. -/
def store4 : Store :=
  { users := [user3], sessions := [sess4], enrollments := [enr3], nextEid := 1 }

def adminUser : ReqUser := { id := "admin", isAdmin := true }

def sessEmpty : Session := { sessFull with currentCount := 0 }

/-- One session with `currentCount 0`. -/
def store5 : Store := { sessions := [sessEmpty] }

def enr6 : Enrollment :=
  { eid := 0, userID := "u9", sessionID := "PT0001", status := "pending", date := 0 }

def store6 : Store := { enrollments := [enr6], nextEid := 1 }

/-- A verified token carrying only the student flag. -/
def studentUser : ReqUser := { id := "u1", isStudent := true }

def store7 : Store := { instructors := [instr1] }

def regBody7 : RegisterBody :=
  { username := "alice", password := some "pw", email := "alice@ex.com" }

/-- The token the modelled `register` issues for `regBody7`. -/
def tok7 : Token :=
  { payload := [("id", JVal.str "uid-1"), ("email", JVal.str "alice@ex.com"),
                ("username", JVal.str "alice")],
    expiresIn := "24h" }

def store8 : Store :=
  { vehicles := [veh1], instructors := [instr1], counters := [⟨"sessionID", 41⟩] }

def body8 : CreateBody :=
  { date := some "2025-03-10", time := some "10:00", location := some "Galle",
    vehicleID := some "v1", instructorID := some "i1", maxCount := some 5,
    instructorQualification := some "heavy" }

def regBody9 : RegisterBody :=
  { username := "bob", password := some "pw9", email := "bob@ex.com", isStudent := some false }

def regBody10 : RegisterBody :=
  { username := "kay", password := some "pw10", email := "other@ex.com" }

/-! ## List lemmas about the store primitives -/

theorem find?_append_some {p : α → Bool} {l l' : List α} {a : α} (h : l.find? p = some a) :
    (l ++ l').find? p = some a := by
  rw [List.find?_append, h, Option.or]

theorem find?_append_none {p : α → Bool} {l l' : List α} (h : l.find? p = none) :
    (l ++ l').find? p = l'.find? p := by
  rw [List.find?_append, h, Option.or]

theorem mem_updateFirst {p : α → Bool} {f : α → α} {l : List α} {b : α}
    (h : b ∈ updateFirst p f l) :
    b ∈ l ∨ ∃ a, l.find? p = some a ∧ b = f a := by
  induction l with
  | nil => simp [updateFirst] at h
  | cons x xs ih =>
    rw [updateFirst] at h
    by_cases hp : p x
    · rw [if_pos hp] at h
      rcases List.mem_cons.mp h with h1 | h2
      · exact Or.inr ⟨x, List.find?_cons_of_pos _ hp, h1⟩
      · exact Or.inl (List.mem_cons_of_mem _ h2)
    · rw [if_neg hp] at h
      rcases List.mem_cons.mp h with h1 | h2
      · exact Or.inl (h1 ▸ List.mem_cons_self x xs)
      · rcases ih h2 with h3 | ⟨a, ha, hb⟩
        · exact Or.inl (List.mem_cons_of_mem _ h3)
        · exact Or.inr ⟨a, by rw [List.find?_cons_of_neg _ hp, ha], hb⟩

theorem find?_updateFirst_self {p : α → Bool} {f : α → α}
    (hf : ∀ a, p a = true → p (f a) = true) (l : List α) :
    (updateFirst p f l).find? p = (l.find? p).map f := by
  induction l with
  | nil => rfl
  | cons x xs ih =>
    rw [updateFirst]
    by_cases hp : p x
    · rw [if_pos hp, List.find?_cons_of_pos _ (hf x hp), List.find?_cons_of_pos _ hp,
        Option.map_some']
    · rw [if_neg hp, List.find?_cons_of_neg _ hp, List.find?_cons_of_neg _ hp, ih]

theorem find?_updateFirst_other {p q : α → Bool} {f : α → α}
    (hq : ∀ a, q (f a) = q a) (hpq : ∀ a, p a = true → q a = false) (l : List α) :
    (updateFirst p f l).find? q = l.find? q := by
  induction l with
  | nil => rfl
  | cons x xs ih =>
    rw [updateFirst]
    by_cases hp : p x
    · have hqx : ¬ q x = true := by simp [hpq x hp]
      have hqfx : ¬ q (f x) = true := by simp [hq, hpq x hp]
      rw [if_pos hp, List.find?_cons_of_neg _ hqfx, List.find?_cons_of_neg _ hqx]
    · by_cases hqx : q x
      · rw [if_neg hp, List.find?_cons_of_pos _ hqx, List.find?_cons_of_pos _ hqx]
      · rw [if_neg hp, List.find?_cons_of_neg _ hqx, List.find?_cons_of_neg _ hqx, ih]

theorem eraseP_decomp {p : α → Bool} {l : List α} {e : α} (h : l.find? p = some e) :
    ∃ l₁ l₂, l = l₁ ++ e :: l₂ ∧ (∀ b ∈ l₁, ¬ p b = true) ∧ l.eraseP p = l₁ ++ l₂ := by
  induction l with
  | nil => simp at h
  | cons x xs ih =>
    by_cases hp : p x
    · rw [List.find?_cons_of_pos _ hp] at h
      obtain rfl : x = e := by injection h
      exact ⟨[], xs, rfl, by simp, by simp [List.eraseP_cons, hp]⟩
    · rw [List.find?_cons_of_neg _ hp] at h
      obtain ⟨l₁, l₂, h1, h2, h3⟩ := ih h
      refine ⟨x :: l₁, l₂, by simp [h1], ?_, ?_⟩
      · intro b hb
        rcases List.mem_cons.mp hb with rfl | hb2
        · exact hp
        · exact h2 b hb2
      · simp [List.eraseP_cons, hp, h3]

theorem countRows_append (E : List Enrollment) (e : Enrollment) (sid : String) :
    countRows (E ++ [e]) sid = countRows E sid + (if e.sessionID == sid then 1 else 0) := by
  simp only [countRows, List.filter_append, List.length_append, List.filter_cons,
    List.filter_nil]
  by_cases h : e.sessionID == sid <;> simp [h]

theorem countRows_pos_of_mem {E : List Enrollment} {e : Enrollment} {sid : String}
    (he : e ∈ E) (hs : e.sessionID = sid) : 0 < countRows E sid := by
  rw [countRows, ← List.countP_eq_length_filter]
  exact List.countP_pos_iff.mpr ⟨e, he, by simp [hs]⟩

theorem countRows_eq_zero_of_not_mem {E : List Enrollment} {sid : String}
    (h : ∀ e ∈ E, e.sessionID ≠ sid) : countRows E sid = 0 := by
  rw [countRows, List.length_eq_zero, List.filter_eq_nil_iff]
  intro e he
  simp [h e he]

theorem countRows_eraseP {E : List Enrollment} {k : Nat} {e : Enrollment}
    (h : E.find? (fun x => x.eid == k) = some e) (sid : String) :
    countRows E sid =
      countRows (E.eraseP (fun x => x.eid == k)) sid +
        (if e.sessionID == sid then 1 else 0) := by
  obtain ⟨l₁, l₂, h1, _, h3⟩ := eraseP_decomp h
  rw [h3, h1]
  simp only [countRows, List.filter_append, List.length_append, List.filter_cons]
  by_cases hc : (e.sessionID == sid) = true
  · simp [hc]
    omega
  · simp [hc]

/-! ## Preservation of the capacity invariant -/

/-- Case analysis of `enrollStudent`: every run either leaves the store
untouched, or satisfies all the handler's checks and performs exactly the
row insertion plus first-match increment of the source. -/
theorem enrollStudent_cases (uid : String) (sid? : Option String) (now : Int) (σ : Store) :
    (enrollStudent uid sid? now σ).2 = σ ∨
    ∃ sid s, sid? = some sid ∧ sid ≠ "" ∧ (findUser σ uid).isSome ∧
      findSession σ sid = some s ∧ s.status = "pending" ∧
      s.currentCount < s.maxCount ∧ findEnrollmentPair σ uid sid = none ∧
      enrollStudent uid sid? now σ =
        (respEnrolled,
         { σ with
             enrollments := σ.enrollments ++ [⟨σ.nextEid, uid, sid, "pending", now⟩]
             sessions :=
               updateFirst (fun t => t.sessionID == sid)
                 (fun t => { t with currentCount := t.currentCount + 1 }) σ.sessions
             nextEid := σ.nextEid + 1 }) := by
  unfold enrollStudent
  repeat' split
  all_goals try (left; rfl)
  rename_i sidq sid hsid xu u huser xs s hs hpend hfull hdup
  refine Or.inr ⟨sid, s, rfl, ?_, ?_, hs, ?_, ?_, ?_, rfl⟩
  · simpa using hsid
  · rw [huser]; rfl
  · simpa using hpend
  · omega
  · exact Option.not_isSome_iff_eq_none.mp (by simpa using hdup)

theorem inv_enroll (σ : Store) (uid : String) (sid? : Option String) (now : Int)
    (hI : Inv σ) : Inv (enrollStudent uid sid? now σ).2 := by
  obtain ⟨hA, hB, hC, hD⟩ := hI
  rcases enrollStudent_cases uid sid? now σ with heq | ⟨sid, s, _, _, _, hs, _, hfull, _, heq⟩
  · rw [heq]; exact ⟨hA, hB, hC, hD⟩
  · rw [heq]
    rw [findSession] at hs
    have hsmem : s ∈ σ.sessions := List.mem_of_find?_eq_some hs
    refine ⟨?_, ?_, ?_, ?_⟩
    · intro t ht
      rcases mem_updateFirst ht with h | ⟨a, ha, rfl⟩
      · exact hA t h
      · exact hA a (List.mem_of_find?_eq_some ha)
    · intro t ht
      rcases mem_updateFirst ht with h | ⟨a, ha, rfl⟩
      · exact hB t h
      · obtain rfl : s = a := Option.some.inj (hs.symm.trans ha)
        have hb := hB s hsmem
        refine ⟨?_, ?_⟩
        · show (0 : Int) ≤ s.currentCount + 1
          omega
        · show s.currentCount + 1 ≤ s.maxCount
          omega
    · intro sid' s' hfind
      rw [findSession] at hfind
      by_cases hss : sid' = sid
      · subst hss
        rw [show (({ σ with
              enrollments := σ.enrollments ++ [⟨σ.nextEid, uid, sid', "pending", now⟩]
              sessions := updateFirst (fun t => t.sessionID == sid')
                (fun t => { t with currentCount := t.currentCount + 1 }) σ.sessions
              nextEid := σ.nextEid + 1 } : Store)).sessions =
            updateFirst (fun t => t.sessionID == sid')
              (fun t => { t with currentCount := t.currentCount + 1 }) σ.sessions from rfl,
          find?_updateFirst_self (p := fun t : Session => t.sessionID == sid')
            (f := fun t : Session => { t with currentCount := t.currentCount + 1 })
            (fun a hpa => hpa)] at hfind
        rw [hs, Option.map_some'] at hfind
        obtain rfl : { s with currentCount := s.currentCount + 1 } = s' :=
          Option.some.inj hfind
        have hcnt := hC sid' s (by rw [findSession]; exact hs)
        show s.currentCount + 1 =
          (countRows (σ.enrollments ++ [⟨σ.nextEid, uid, sid', "pending", now⟩]) sid' : Int)
        rw [countRows_append]
        have hone : ((⟨σ.nextEid, uid, sid', "pending", now⟩ : Enrollment).sessionID == sid') =
            true := by simp
        rw [hone]
        simp only [eq_self_iff_true, if_true]
        push_cast
        omega
      · have hpq : ∀ a : Session, (a.sessionID == sid) = true →
            (a.sessionID == sid') = false := by
          intro a hpa
          have h1 : a.sessionID = sid := by simpa using hpa
          rw [beq_eq_false_iff_ne, h1]
          exact fun h2 => hss h2.symm
        rw [show (({ σ with
              enrollments := σ.enrollments ++ [⟨σ.nextEid, uid, sid, "pending", now⟩]
              sessions := updateFirst (fun t => t.sessionID == sid)
                (fun t => { t with currentCount := t.currentCount + 1 }) σ.sessions
              nextEid := σ.nextEid + 1 } : Store)).sessions =
            updateFirst (fun t => t.sessionID == sid)
              (fun t => { t with currentCount := t.currentCount + 1 }) σ.sessions from rfl,
          find?_updateFirst_other (p := fun t : Session => t.sessionID == sid)
            (q := fun t : Session => t.sessionID == sid')
            (f := fun t : Session => { t with currentCount := t.currentCount + 1 })
            (fun a => rfl) hpq] at hfind
        have hcnt := hC sid' s' (by rw [findSession]; exact hfind)
        show s'.currentCount =
          (countRows (σ.enrollments ++ [⟨σ.nextEid, uid, sid, "pending", now⟩]) sid' : Int)
        rw [countRows_append]
        have hzero : ((⟨σ.nextEid, uid, sid, "pending", now⟩ : Enrollment).sessionID == sid') =
            false := by
          rw [beq_eq_false_iff_ne]
          show sid ≠ sid'
          exact fun h2 => hss h2.symm
        rw [hzero]
        simpa using hcnt
    · intro e' he'
      rcases List.mem_append.mp he' with h | h
      · obtain ⟨s₀, hs₀⟩ := hD e' h
        rw [findSession] at hs₀
        by_cases hss : e'.sessionID = sid
        · refine ⟨{ s with currentCount := s.currentCount + 1 }, ?_⟩
          rw [findSession]
          show (updateFirst (fun t => t.sessionID == sid)
              (fun t => { t with currentCount := t.currentCount + 1 }) σ.sessions).find?
            (fun t => t.sessionID == e'.sessionID) = _
          rw [hss, find?_updateFirst_self (p := fun t : Session => t.sessionID == sid)
            (f := fun t : Session => { t with currentCount := t.currentCount + 1 })
            (fun a hpa => hpa), hs, Option.map_some']
        · refine ⟨s₀, ?_⟩
          rw [findSession]
          show (updateFirst (fun t => t.sessionID == sid)
              (fun t => { t with currentCount := t.currentCount + 1 }) σ.sessions).find?
            (fun t => t.sessionID == e'.sessionID) = _
          have hpq : ∀ a : Session, (a.sessionID == sid) = true →
              (a.sessionID == e'.sessionID) = false := by
            intro a hpa
            have h1 : a.sessionID = sid := by simpa using hpa
            rw [beq_eq_false_iff_ne, h1]
            exact fun h2 => hss h2.symm
          rw [find?_updateFirst_other (p := fun t : Session => t.sessionID == sid)
            (q := fun t : Session => t.sessionID == e'.sessionID)
            (f := fun t : Session => { t with currentCount := t.currentCount + 1 })
            (fun a => rfl) hpq]
          exact hs₀
      · obtain rfl : e' = ⟨σ.nextEid, uid, sid, "pending", now⟩ := by simpa using h
        refine ⟨{ s with currentCount := s.currentCount + 1 }, ?_⟩
        rw [findSession]
        show (updateFirst (fun t => t.sessionID == sid)
            (fun t => { t with currentCount := t.currentCount + 1 }) σ.sessions).find?
          (fun t => t.sessionID ==
            (⟨σ.nextEid, uid, sid, "pending", now⟩ : Enrollment).sessionID) = _
        rw [show ((⟨σ.nextEid, uid, sid, "pending", now⟩ : Enrollment).sessionID) = sid from rfl,
          find?_updateFirst_self (p := fun t : Session => t.sessionID == sid)
            (f := fun t : Session => { t with currentCount := t.currentCount + 1 })
            (fun a hpa => hpa), hs, Option.map_some']

/-- Case analysis of `cancelEnrollment`: every run either leaves the store
untouched, or deletes the found row and decrements the first matching
session (when one exists, and it is not completed), or deletes the row
alone (when the session is gone). -/
theorem cancelEnrollment_cases (caller : ReqUser) (k : Nat) (σ : Store) :
    (cancelEnrollment caller k σ).2 = σ ∨
    ∃ e, findEnrollmentById σ k = some e ∧
      ((∃ s, findSession σ e.sessionID = some s ∧ s.status ≠ "completed" ∧
          cancelEnrollment caller k σ =
            (respCanceled,
             { σ with
                 enrollments := σ.enrollments.eraseP (fun x => x.eid == k)
                 sessions :=
                   updateFirst (fun t => t.sessionID == e.sessionID)
                     (fun t => { t with currentCount := t.currentCount - 1 }) σ.sessions })) ∨
        (findSession σ e.sessionID = none ∧
          cancelEnrollment caller k σ =
            (respCanceled,
             { σ with enrollments := σ.enrollments.eraseP (fun x => x.eid == k) }))) := by
  unfold cancelEnrollment
  repeat' split
  all_goals try (left; rfl)
  · rename_i xe e he hauth xs s hs hcomp
    refine Or.inr ⟨e, he, Or.inl ⟨s, hs, ?_, rfl⟩⟩
    simpa using hcomp
  · rename_i x0 e he hauth xs hsn
    exact Or.inr ⟨e, he, Or.inr ⟨hsn, rfl⟩⟩

theorem inv_cancel (σ : Store) (caller : ReqUser) (k : Nat) (hI : Inv σ) :
    Inv (cancelEnrollment caller k σ).2 := by
  obtain ⟨hA, hB, hC, hD⟩ := hI
  rcases cancelEnrollment_cases caller k σ with heq | ⟨e, he, hcase⟩
  · rw [heq]; exact ⟨hA, hB, hC, hD⟩
  rw [findEnrollmentById] at he
  have hemem : e ∈ σ.enrollments := List.mem_of_find?_eq_some he
  have hpos : 0 < countRows σ.enrollments e.sessionID := countRows_pos_of_mem hemem rfl
  rcases hcase with ⟨s, hs, hscomp, heq⟩ | ⟨hsn, heq⟩
  · rw [heq]
    rw [findSession] at hs
    have hsmem : s ∈ σ.sessions := List.mem_of_find?_eq_some hs
    have hcnt0 := hC e.sessionID s (by rw [findSession]; exact hs)
    refine ⟨?_, ?_, ?_, ?_⟩
    · intro t ht
      rcases mem_updateFirst ht with h | ⟨a, ha, rfl⟩
      · exact hA t h
      · exact hA a (List.mem_of_find?_eq_some ha)
    · intro t ht
      rcases mem_updateFirst ht with h | ⟨a, ha, rfl⟩
      · exact hB t h
      · obtain rfl : s = a := Option.some.inj (hs.symm.trans ha)
        have hb := hB s hsmem
        refine ⟨?_, ?_⟩
        · show (0 : Int) ≤ s.currentCount - 1
          omega
        · show s.currentCount - 1 ≤ s.maxCount
          omega
    · intro sid' s' hfind
      rw [findSession] at hfind
      by_cases hss : sid' = e.sessionID
      · subst hss
        rw [show (({ σ with
              enrollments := σ.enrollments.eraseP (fun x => x.eid == k)
              sessions := updateFirst (fun t => t.sessionID == e.sessionID)
                (fun t => { t with currentCount := t.currentCount - 1 }) σ.sessions } :
              Store)).sessions =
            updateFirst (fun t => t.sessionID == e.sessionID)
              (fun t => { t with currentCount := t.currentCount - 1 }) σ.sessions from rfl,
          find?_updateFirst_self (p := fun t : Session => t.sessionID == e.sessionID)
            (f := fun t : Session => { t with currentCount := t.currentCount - 1 })
            (fun a hpa => hpa)] at hfind
        rw [hs, Option.map_some'] at hfind
        obtain rfl : { s with currentCount := s.currentCount - 1 } = s' :=
          Option.some.inj hfind
        have hcr := countRows_eraseP he e.sessionID
        simp only [beq_self_eq_true, eq_self_iff_true, if_true] at hcr
        show s.currentCount - 1 =
          (countRows (σ.enrollments.eraseP (fun x => x.eid == k)) e.sessionID : Int)
        omega
      · have hpq : ∀ a : Session, (a.sessionID == e.sessionID) = true →
            (a.sessionID == sid') = false := by
          intro a hpa
          have h1 : a.sessionID = e.sessionID := by simpa using hpa
          rw [beq_eq_false_iff_ne, h1]
          exact fun h2 => hss h2.symm
        rw [show (({ σ with
              enrollments := σ.enrollments.eraseP (fun x => x.eid == k)
              sessions := updateFirst (fun t => t.sessionID == e.sessionID)
                (fun t => { t with currentCount := t.currentCount - 1 }) σ.sessions } :
              Store)).sessions =
            updateFirst (fun t => t.sessionID == e.sessionID)
              (fun t => { t with currentCount := t.currentCount - 1 }) σ.sessions from rfl,
          find?_updateFirst_other (p := fun t : Session => t.sessionID == e.sessionID)
            (q := fun t : Session => t.sessionID == sid')
            (f := fun t : Session => { t with currentCount := t.currentCount - 1 })
            (fun a => rfl) hpq] at hfind
        have hcnt := hC sid' s' (by rw [findSession]; exact hfind)
        have hzero : (e.sessionID == sid') = false := by
          rw [beq_eq_false_iff_ne]
          exact fun h2 => hss h2.symm
        have hcr := countRows_eraseP he sid'
        rw [hzero] at hcr
        simp only [Bool.false_eq_true, if_false] at hcr
        show s'.currentCount =
          (countRows (σ.enrollments.eraseP (fun x => x.eid == k)) sid' : Int)
        omega
    · intro e' he'
      have h2 : e' ∈ σ.enrollments := List.mem_of_mem_eraseP he'
      obtain ⟨s₀, hs₀⟩ := hD e' h2
      rw [findSession] at hs₀
      by_cases hss : e'.sessionID = e.sessionID
      · refine ⟨{ s with currentCount := s.currentCount - 1 }, ?_⟩
        rw [findSession]
        show (updateFirst (fun t => t.sessionID == e.sessionID)
            (fun t => { t with currentCount := t.currentCount - 1 }) σ.sessions).find?
          (fun t => t.sessionID == e'.sessionID) = _
        rw [hss, find?_updateFirst_self (p := fun t : Session => t.sessionID == e.sessionID)
          (f := fun t : Session => { t with currentCount := t.currentCount - 1 })
          (fun a hpa => hpa), hs, Option.map_some']
      · refine ⟨s₀, ?_⟩
        rw [findSession]
        show (updateFirst (fun t => t.sessionID == e.sessionID)
            (fun t => { t with currentCount := t.currentCount - 1 }) σ.sessions).find?
          (fun t => t.sessionID == e'.sessionID) = _
        have hpq : ∀ a : Session, (a.sessionID == e.sessionID) = true →
            (a.sessionID == e'.sessionID) = false := by
          intro a hpa
          have h1 : a.sessionID = e.sessionID := by simpa using hpa
          rw [beq_eq_false_iff_ne, h1]
          exact fun h2 => hss h2.symm
        rw [find?_updateFirst_other (p := fun t : Session => t.sessionID == e.sessionID)
          (q := fun t : Session => t.sessionID == e'.sessionID)
          (f := fun t : Session => { t with currentCount := t.currentCount - 1 })
          (fun a => rfl) hpq]
        exact hs₀
  · rw [heq]
    refine ⟨hA, hB, ?_, ?_⟩
    · intro sid' s' hfind
      have hf2 : findSession σ sid' = some s' := hfind
      have hcnt := hC sid' s' hf2
      have hne : e.sessionID ≠ sid' := by
        intro hh
        rw [hh] at hsn
        rw [hsn] at hf2
        exact Option.noConfusion hf2
      have hzero : (e.sessionID == sid') = false := beq_eq_false_iff_ne.mpr hne
      have hcr := countRows_eraseP he sid'
      rw [hzero] at hcr
      simp only [Bool.false_eq_true, if_false] at hcr
      show s'.currentCount =
        (countRows (σ.enrollments.eraseP (fun x => x.eid == k)) sid' : Int)
      omega
    · intro e' he'
      have h2 : e' ∈ σ.enrollments := List.mem_of_mem_eraseP he'
      obtain ⟨s₀, hs₀⟩ := hD e' h2
      exact ⟨s₀, hs₀⟩

/-- `getNextSequenceValue` never touches the session collection. -/
theorem getNextSequenceValue_sessions (name : String) (σ : Store) :
    (getNextSequenceValue name σ).2.sessions = σ.sessions := by
  unfold getNextSequenceValue
  cases h : findCounter σ name <;> rfl

/-- `getNextSequenceValue` never touches the enrollment collection. -/
theorem getNextSequenceValue_enrollments (name : String) (σ : Store) :
    (getNextSequenceValue name σ).2.enrollments = σ.enrollments := by
  unfold getNextSequenceValue
  cases h : findCounter σ name <;> rfl

/-- Appending a fresh zero-count session (and replacing the counter
collection) preserves the invariant. -/
theorem inv_append_session (σ : Store) (hI : Inv σ) (s : Session)
    (hmax : 0 ≤ s.maxCount) (hcur : s.currentCount = 0) (cs : List Counter) :
    Inv { σ with sessions := σ.sessions ++ [s], counters := cs } := by
  obtain ⟨hA, hB, hC, hD⟩ := hI
  refine ⟨?_, ?_, ?_, ?_⟩
  · intro t ht
    rcases List.mem_append.mp ht with h | h
    · exact hA t h
    · obtain rfl : t = s := by simpa using h
      exact hmax
  · intro t ht
    rcases List.mem_append.mp ht with h | h
    · exact hB t h
    · obtain rfl : t = s := by simpa using h
      rw [hcur]
      exact ⟨le_refl 0, hmax⟩
  · intro sid' s' hfind
    have hfind2 : (σ.sessions ++ [s]).find? (fun t => t.sessionID == sid') = some s' := hfind
    show s'.currentCount = (countRows σ.enrollments sid' : Int)
    cases hfo : σ.sessions.find? (fun t => t.sessionID == sid') with
    | some a =>
      rw [find?_append_some hfo] at hfind2
      obtain rfl : a = s' := Option.some.inj hfind2
      exact hC sid' a (by rw [findSession]; exact hfo)
    | none =>
      rw [find?_append_none hfo] at hfind2
      have hz : countRows σ.enrollments sid' = 0 := by
        apply countRows_eq_zero_of_not_mem
        intro e he hcontra
        obtain ⟨sx, hsx⟩ := hD e he
        rw [findSession, hcontra, hfo] at hsx
        exact Option.noConfusion hsx
      by_cases hp : (s.sessionID == sid') = true
      · rw [List.find?_cons_of_pos (p := fun t : Session => t.sessionID == sid') (a := s)
          ([] : List Session) hp] at hfind2
        obtain rfl : s = s' := Option.some.inj hfind2
        rw [hz, hcur]
        rfl
      · rw [List.find?_cons_of_neg (p := fun t : Session => t.sessionID == sid') (a := s)
          ([] : List Session) hp] at hfind2
        exact Option.noConfusion hfind2
  · intro e' he'
    obtain ⟨s₀, hs₀⟩ := hD e' he'
    refine ⟨s₀, ?_⟩
    rw [findSession] at hs₀
    show (σ.sessions ++ [s]).find? (fun t => t.sessionID == e'.sessionID) = some s₀
    exact find?_append_some hs₀

theorem inv_create (σ : Store) (body : CreateBody)
    (hm : ∀ m, body.maxCount = some m → 0 ≤ m) (hI : Inv σ) :
    Inv (createPhysicalTraining body σ).2 := by
  have hstore : ∀ ns : Session,
      ({ (getNextSequenceValue "sessionID" σ).2 with
         sessions := (getNextSequenceValue "sessionID" σ).2.sessions ++ [ns] } : Store) =
      { σ with sessions := σ.sessions ++ [ns],
               counters := (getNextSequenceValue "sessionID" σ).2.counters } := by
    intro ns
    unfold getNextSequenceValue
    cases hfc : findCounter σ "sessionID" <;> rfl
  unfold createPhysicalTraining
  repeat' split
  all_goals try exact hI
  rename_i o1 o2 o3 o4 o5 o6 d t loc vid iid m hqd hqt hql hqv hqi heqm hguard xv v hveh xi i hins
  have hmax : 0 ≤ m := hm m heqm
  show Inv ({ (getNextSequenceValue "sessionID" σ).2 with
      sessions := (getNextSequenceValue "sessionID" σ).2.sessions ++
        [{ sessionID := (getNextSequenceValue "sessionID" σ).1, date := d, time := t,
           location := loc, vehicleID := vid, instructorID := iid, maxCount := m,
           currentCount := 0, status := "pending",
           instructorQualification := body.instructorQualification }] } : Store)
  rw [hstore]
  exact inv_append_session σ hI _ hmax rfl _

/-- Rewriting the first matching session with a function that preserves its
id, its `currentCount` and its `maxCount` preserves the invariant. -/
theorem inv_updateFirst_preserving (σ : Store) (hI : Inv σ) (sid : String)
    (f : Session → Session)
    (hid : ∀ t, (f t).sessionID = t.sessionID)
    (hcc : ∀ t, (f t).currentCount = t.currentCount)
    (hmx : ∀ t, (f t).maxCount = t.maxCount) :
    Inv { σ with sessions := updateFirst (fun t => t.sessionID == sid) f σ.sessions } := by
  obtain ⟨hA, hB, hC, hD⟩ := hI
  refine ⟨?_, ?_, ?_, ?_⟩
  · intro t ht
    rcases mem_updateFirst ht with h | ⟨a, ha, rfl⟩
    · exact hA t h
    · rw [hmx]
      exact hA a (List.mem_of_find?_eq_some ha)
  · intro t ht
    rcases mem_updateFirst ht with h | ⟨a, ha, rfl⟩
    · exact hB t h
    · rw [hcc, hmx]
      exact hB a (List.mem_of_find?_eq_some ha)
  · intro sid' s' hfind
    have hfind2 : (updateFirst (fun t => t.sessionID == sid) f σ.sessions).find?
        (fun t => t.sessionID == sid') = some s' := hfind
    show s'.currentCount = (countRows σ.enrollments sid' : Int)
    by_cases hss : sid' = sid
    · subst hss
      rw [find?_updateFirst_self (p := fun t : Session => t.sessionID == sid') (f := f)
        (by intro a hpa; simp only [hid]; exact hpa)] at hfind2
      cases hfo : σ.sessions.find? (fun t => t.sessionID == sid') with
      | none =>
        rw [hfo] at hfind2
        exact Option.noConfusion hfind2
      | some a =>
        rw [hfo, Option.map_some'] at hfind2
        obtain rfl : f a = s' := Option.some.inj hfind2
        rw [hcc]
        exact hC sid' a (by rw [findSession]; exact hfo)
    · rw [find?_updateFirst_other (p := fun t : Session => t.sessionID == sid)
        (q := fun t : Session => t.sessionID == sid') (f := f)
        (by intro a; simp only [hid])
        (fun a hpa => by
          have h1 : a.sessionID = sid := by simpa using hpa
          rw [beq_eq_false_iff_ne, h1]
          exact fun h2 => hss h2.symm)] at hfind2
      exact hC sid' s' (by rw [findSession]; exact hfind2)
  · intro e' he'
    obtain ⟨s₀, hs₀⟩ := hD e' he'
    rw [findSession] at hs₀
    by_cases hss : e'.sessionID = sid
    · cases hfo : σ.sessions.find? (fun t => t.sessionID == sid) with
      | none =>
        rw [hss, hfo] at hs₀
        exact Option.noConfusion hs₀
      | some a =>
        refine ⟨f a, ?_⟩
        rw [findSession]
        show (updateFirst (fun t => t.sessionID == sid) f σ.sessions).find?
          (fun t => t.sessionID == e'.sessionID) = some (f a)
        rw [hss, find?_updateFirst_self (p := fun t : Session => t.sessionID == sid) (f := f)
          (by intro a2 hpa; simp only [hid]; exact hpa), hfo, Option.map_some']
    · refine ⟨s₀, ?_⟩
      rw [findSession]
      show (updateFirst (fun t => t.sessionID == sid) f σ.sessions).find?
        (fun t => t.sessionID == e'.sessionID) = some s₀
      rw [find?_updateFirst_other (p := fun t : Session => t.sessionID == sid)
        (q := fun t : Session => t.sessionID == e'.sessionID) (f := f)
        (by intro a; simp only [hid])
        (fun a hpa => by
          have h1 : a.sessionID = sid := by simpa using hpa
          rw [beq_eq_false_iff_ne, h1]
          exact fun h2 => hss h2.symm)]
      exact hs₀

theorem inv_update (σ : Store) (sid : String) (body : UpdateBody)
    (hcc : body.currentCount = none) (hmc : body.maxCount = none) (hI : Inv σ) :
    Inv (updatePhysicalTraining sid body σ).2 := by
  unfold updatePhysicalTraining
  repeat' split
  all_goals try exact hI
  all_goals try (exfalso; simp_all; done)
  all_goals
    (exact inv_updateFirst_preserving σ hI sid (applySessionUpdate body)
      (fun t => rfl)
      (fun t => by simp [applySessionUpdate, hcc])
      (fun t => by simp [applySessionUpdate, hmc]))

theorem inv_status (σ : Store) (sid : String) (st? : Option String) (hI : Inv σ) :
    Inv (updateSessionStatus sid st? σ).2 := by
  unfold updateSessionStatus
  repeat' split
  all_goals try exact hI
  all_goals
    (exact inv_updateFirst_preserving σ hI sid _ (fun t => rfl) (fun t => rfl) (fun t => rfl))

theorem inv_init (σ : Store) (hs : σ.sessions = []) (he : σ.enrollments = []) : Inv σ := by
  refine ⟨?_, ?_, ?_, ?_⟩
  · intro s hmem
    rw [hs] at hmem
    simp at hmem
  · intro s hmem
    rw [hs] at hmem
    simp at hmem
  · intro sid s hfind
    rw [findSession, hs] at hfind
    exact Option.noConfusion hfind
  · intro e hmem
    rw [he] at hmem
    simp at hmem

/-- Every store reachable by the restricted operation set satisfies the
strengthened invariant. -/
theorem inv_of_reach (σ : Store) (h : Reach σ) : Inv σ := by
  induction h with
  | init σ hs he => exact inv_init σ hs he
  | createStep σ body h hm ih => exact inv_create σ body hm ih
  | updateStep σ sid body h hcc hmc ih => exact inv_update σ sid body hcc hmc ih
  | statusStep σ sid st h ih => exact inv_status σ sid st ih
  | enrollStep σ uid sid? now h ih => exact inv_enroll σ uid sid? now ih
  | cancelStep σ caller k h ih => exact inv_cancel σ caller k ih

/-! ## Claims -/

/-- C1 (amended).  The original claim — `0 ≤ currentCount ≤ maxCount` for every
session in every store reachable via session create, session field-update,
session status-update, enroll and cancel — fails on the code (see the
counterexample: a field update may store a negative `currentCount`, and a
create or update may also set `maxCount` below `currentCount`).  Amended:
the invariant holds for every store reachable by those operations when
session creation is not fed a negative `maxCount` and field updates do not
supply the `currentCount` or `maxCount` fields directly. -/
theorem C1_capacity_invariant (σ : Store) (h : Reach σ) :
    ∀ s ∈ σ.sessions, 0 ≤ s.currentCount ∧ s.currentCount ≤ s.maxCount :=
  (inv_of_reach σ h).2.1

/-- C1 counterexample: create a session with `maxCount = 1` (status 201),
then issue the field update `{currentCount: -1}` (status 200; the handler's
only bound check is `currentCount > maxCount`).  The resulting store —
reached only via operations named in the claim — holds a session with
`currentCount = -1`, violating `0 ≤ currentCount`. -/
theorem C1_counterexample :
    (findSession cexState "PT0001").map Session.currentCount = some (-1) ∧
    ¬ (0 : Int) ≤ (-1 : Int) := by
  refine ⟨?_, by decide⟩
  rfl

/-- C1 witness: the amended theorem applied to a concrete reachable store
(one restricted create step from an initial store) and its one session. -/
theorem C1_capacity_invariant_witness :
    0 ≤ cexSess.currentCount ∧ cexSess.currentCount ≤ cexSess.maxCount :=
  C1_capacity_invariant _
    (Reach.createStep cexBase cexCreateBody (Reach.init cexBase rfl rfl)
      (by intro m hm; simp [cexCreateBody] at hm; omega))
    cexSess (by decide)

/-- C2 (amended).  The original claim — every enroll request against an
existing pending session with `currentCount = maxCount` fails with
ValidationError (400) and leaves the store unchanged — fails on the code
when the caller's user record does not resolve (the handler returns 404
first; see the counterexample).  Amended: such a request always fails and
leaves the store unchanged; the failure is the 400 `Session is full`
response when the caller's user record exists, and the 404 `User not found`
response when it does not. -/
theorem C2_enroll_full_fails (σ σ' : Store) (r : Resp) (uid sid : String) (s : Session)
    (now : Int)
    (hsid : sid ≠ "") (hs : findSession σ sid = some s)
    (hpend : s.status = "pending") (hfull : s.currentCount = s.maxCount)
    (hres : enrollStudent uid (some sid) now σ = (r, σ')) :
    σ' = σ ∧
    ((findUser σ uid).isSome → r = respSessionFull) ∧
    (findUser σ uid = none → r = respUserNotFound) := by
  unfold enrollStudent at hres
  repeat' split at hres
  all_goals (injection hres with h1 h2; subst h1; subst h2)
  all_goals try (exfalso; simp_all; done)
  all_goals simp_all

/-- C2 counterexample: a store holding a full pending session and no user
documents.  The enroll request targets that existing, pending, full session
but the handler answers 404 (`User not found`), not a 400 ValidationError. -/
theorem C2_counterexample :
    sessFull.status = "pending" ∧ sessFull.currentCount = sessFull.maxCount ∧
    enrollStudent "u1" (some "PT0001") 0 store2 = (respUserNotFound, store2) ∧
    respUserNotFound.status = 404 ∧ respUserNotFound.status ≠ 400 := by
  refine ⟨rfl, rfl, ?_, rfl, by decide⟩
  rfl

/-- C2 witness: the amended theorem applied to `store3` (user present,
session full), yielding the `Session is full` response. -/
theorem C2_enroll_full_fails_witness :
    (enrollStudent "u1" (some "PT0001") 0 store3).2 = store3 ∧
    (enrollStudent "u1" (some "PT0001") 0 store3).1 = respSessionFull := by
  have h := C2_enroll_full_fails store3 (enrollStudent "u1" (some "PT0001") 0 store3).2
    (enrollStudent "u1" (some "PT0001") 0 store3).1 "u1" "PT0001" sessFull 0
    (by decide) rfl rfl rfl rfl
  exact ⟨h.1, h.2.1 (by rfl)⟩

/-- C3 (amended).  The original claim — a second enroll by the same
(user, session) pair fails with Conflict (`You are already enrolled in this
session`) — fails on the code when an earlier check fires first: with
`maxCount = 1` the user's own enrollment filled the session, so the second
call answers `Session is full` (see the counterexample).  Amended: when an
enrollment row for (user, session) exists, a second enroll call always
fails, inserts no row and leaves the store unchanged; the failure is the
Conflict response exactly when the user exists and the session exists, is
pending, and still has `currentCount < maxCount`. -/
theorem C3_second_enroll_fails (σ σ' : Store) (r : Resp) (uid sid : String) (e : Enrollment)
    (now : Int)
    (he : findEnrollmentPair σ uid sid = some e)
    (hres : enrollStudent uid (some sid) now σ = (r, σ')) :
    σ' = σ ∧ r.success = false ∧
    (∀ s : Session, sid ≠ "" → (findUser σ uid).isSome → findSession σ sid = some s →
      s.status = "pending" → s.currentCount < s.maxCount → r = respAlreadyEnrolled) := by
  unfold enrollStudent at hres
  repeat' split at hres
  all_goals (injection hres with h1 h2; subst h1; subst h2)
  all_goals try (exfalso; simp_all; done)
  all_goals refine ⟨rfl, by decide, ?_⟩
  all_goals intro s hne hu hfind hp hlt
  all_goals first
    | rfl
    | (exfalso; simp_all; done)
    | (exfalso; simp_all; omega)

/-- C3 counterexample: `u1` is enrolled in pending session `PT0001` with
`maxCount = 1 = currentCount`.  A second enroll call by `u1` for `PT0001`
returns the `Session is full` response, not the Conflict
(`You are already enrolled in this session`) response. -/
theorem C3_counterexample :
    (findEnrollmentPair store3 "u1" "PT0001").isSome = true ∧
    enrollStudent "u1" (some "PT0001") 0 store3 = (respSessionFull, store3) ∧
    respSessionFull ≠ respAlreadyEnrolled := by
  refine ⟨rfl, ?_, by decide⟩
  rfl

/-- C3 witness: the amended theorem applied to `store3b` (session has a free
slot), yielding the Conflict response. -/
theorem C3_second_enroll_fails_witness :
    (enrollStudent "u1" (some "PT0001") 0 store3b).2 = store3b ∧
    (enrollStudent "u1" (some "PT0001") 0 store3b).1 = respAlreadyEnrolled := by
  have h := C3_second_enroll_fails store3b (enrollStudent "u1" (some "PT0001") 0 store3b).2
    (enrollStudent "u1" (some "PT0001") 0 store3b).1 "u1" "PT0001" enr3 0 rfl rfl
  exact ⟨h.1, h.2.2 sess3b (by decide) rfl rfl rfl (by decide)⟩

/-- C4.  For every successful cancel of an existing enrollment: the ledger
row is deleted; when the referenced session exists (success implies it is
not completed) the first matching session's `currentCount` drops by exactly
1; when the session no longer exists the session collection is untouched. -/
theorem C4_cancel_decrements (σ σ' : Store) (r : Resp) (caller : ReqUser) (k : Nat)
    (e : Enrollment)
    (he : findEnrollmentById σ k = some e)
    (hres : cancelEnrollment caller k σ = (r, σ'))
    (hok : r.success = true) :
    σ'.enrollments = σ.enrollments.eraseP (fun x => x.eid == k) ∧
    (∀ s : Session, findSession σ e.sessionID = some s →
      σ'.sessions =
        updateFirst (fun t => t.sessionID == e.sessionID)
          (fun t => { t with currentCount := t.currentCount - 1 }) σ.sessions ∧
      findSession σ' e.sessionID = some { s with currentCount := s.currentCount - 1 }) ∧
    (findSession σ e.sessionID = none → σ'.sessions = σ.sessions) := by
  unfold cancelEnrollment at hres
  repeat' split at hres
  all_goals (injection hres with h1 h2; subst h1; subst h2)
  all_goals try (exact absurd hok (by decide))
  · rename_i xe e2 he2 hauth xs s2 hs2 hcomp
    obtain rfl : e = e2 := Option.some.inj (he.symm.trans he2)
    refine ⟨rfl, ?_, ?_⟩
    · intro s hfind
      obtain rfl : s2 = s := Option.some.inj (hs2.symm.trans hfind)
      refine ⟨rfl, ?_⟩
      rw [findSession] at hs2 ⊢
      show (updateFirst (fun t => t.sessionID == e.sessionID)
          (fun t => { t with currentCount := t.currentCount - 1 }) σ.sessions).find?
        (fun t => t.sessionID == e.sessionID) = _
      rw [find?_updateFirst_self (p := fun t : Session => t.sessionID == e.sessionID)
        (f := fun t : Session => { t with currentCount := t.currentCount - 1 })
        (fun a hpa => hpa), hs2, Option.map_some']
    · intro hnone
      rw [hnone] at hs2
      exact Option.noConfusion hs2
  · rename_i x0 e2 he2 hauth xs hsn
    obtain rfl : e = e2 := Option.some.inj (he.symm.trans he2)
    refine ⟨rfl, ?_, fun _ => rfl⟩
    intro s hfind
    rw [hfind] at hsn
    exact Option.noConfusion hsn

/-- C4 witness: an admin cancels `u1`'s enrollment in the pending session
`PT0001` of `store4`; the row disappears and the count drops from 1 to 0. -/
theorem C4_cancel_decrements_witness :
    (cancelEnrollment adminUser 0 store4).2.enrollments =
      store4.enrollments.eraseP (fun x => x.eid == 0) ∧
    findSession (cancelEnrollment adminUser 0 store4).2 "PT0001" =
      some { sess4 with currentCount := sess4.currentCount - 1 } := by
  have h := C4_cancel_decrements store4 (cancelEnrollment adminUser 0 store4).2
    (cancelEnrollment adminUser 0 store4).1 adminUser 0 enr3 rfl rfl (by rfl)
  exact ⟨h.1, (h.2.1 sess4 rfl).2⟩

/-- C5.  Deleting an existing session: with `currentCount > 0` it fails with
the 400 Conflict response `Cannot delete session with enrolled users` and
the store is unchanged; with `currentCount = 0` it succeeds and the first
matching session is removed from the store. -/
theorem C5_delete_session (σ : Store) (sid : String) (s : Session)
    (hs : findSession σ sid = some s) :
    (0 < s.currentCount → deletePhysicalTraining sid σ = (respCannotDelete, σ)) ∧
    (s.currentCount = 0 →
      deletePhysicalTraining sid σ =
        (respPTDeleted,
         { σ with sessions := σ.sessions.eraseP (fun t => t.sessionID == sid) })) ∧
    respCannotDelete.status = 400 ∧ respCannotDelete.success = false := by
  refine ⟨?_, ?_, rfl, rfl⟩
  · intro hpos
    simp only [deletePhysicalTraining, hs]
    rw [if_pos hpos]
  · intro hzero
    simp only [deletePhysicalTraining, hs]
    rw [if_neg (by omega)]

/-- C5 witness: deleting the empty session of `store5` succeeds and removes
it; the conflict branch of the theorem is vacuous there. -/
theorem C5_delete_session_witness :
    deletePhysicalTraining "PT0001" store5 =
      (respPTDeleted, { store5 with sessions := [] }) := by
  have h := (C5_delete_session store5 "PT0001" sessEmpty rfl).2.1 rfl
  simpa using h

/-- C6 (code bug).  The handler's own doc comment and the spec restrict
enrollment status updates to admins or instructors, but the route
`router.patch('/:id', authenticate, updateEnrollmentStatus)` installs no
role middleware and the handler never reads `req.user`: an authenticated
caller whose token carries only the student flag updates the status with a
200 response instead of being rejected with 403. -/
theorem C6_patch_route_lacks_role_gate :
    studentUser.isAdmin = false ∧ studentUser.isInstructor = false ∧
    patchEnrollmentRoute (Cred.valid studentUser) 0 (some "completed") store6 =
      (respEnrollStatusUpdated "completed",
       { store6 with enrollments := [{ enr6 with status := "completed" }] }) ∧
    (respEnrollStatusUpdated "completed").status = 200 := by
  refine ⟨rfl, rfl, ?_, rfl⟩
  rfl

/-- C7 (code bug).  Token issuance: `register` (and `login`) sign the payload
`{id, email, username}` with 24-hour validity but embed no role flag at all
(instructor login does embed `isInstructor`).  Consequently the student role
gate, which reads only the verified payload, rejects every registered user:
the enroll route answers 403 for the very account `register` just issued a
token to. -/
theorem C7_token_payload_lacks_role_flags :
    (register regBody7 "uid-1" store7).2.2 = some tok7 ∧
    tok7.payload.lookup "isStudent" = none ∧
    tok7.payload.lookup "isAdmin" = none ∧
    tok7.payload.lookup "isInstructor" = none ∧
    tok7.expiresIn = "24h" ∧
    tok7.payload.lookup "id" = some (JVal.str "uid-1") ∧
    tok7.payload.lookup "email" = some (JVal.str "alice@ex.com") ∧
    ((instructorLogin (some "ina@ex.com") (some "pw2") store7).2.map
      (fun tk => tk.payload.lookup "isInstructor")) = some (some (JVal.bool true)) ∧
    (postEnrollRoute (Cred.valid (toReqUser tok7)) (some "PT0001") 0 store7).1 =
      respStudentRequired := by
  refine ⟨?_, rfl, rfl, rfl, rfl, rfl, rfl, ?_, ?_⟩
  · rfl
  · rfl
  · rfl

/-- C8.  A successful session create mints its identifier from the freshly
incremented counter — `PT` followed by the value zero-padded to 4 digits —
and appends a session with `currentCount = 0` and status `pending`. -/
theorem C8_create_session (σ : Store) (body : CreateBody) (d t loc vid iid : String)
    (m : Int) (w : Vehicle) (ins : Instructor)
    (hd : body.date = some d) (hd' : d ≠ "")
    (ht : body.time = some t) (ht' : t ≠ "")
    (hl : body.location = some loc) (hl' : loc ≠ "")
    (hv : body.vehicleID = some vid) (hv' : vid ≠ "")
    (hi : body.instructorID = some iid) (hi' : iid ≠ "")
    (hm : body.maxCount = some m) (hm' : m ≠ 0)
    (hveh : findVehicle σ vid = some w) (hins : findInstr σ iid = some ins) :
    (createPhysicalTraining body σ).1 = respPTCreated ∧
    (createPhysicalTraining body σ).2.sessions =
      σ.sessions ++
        [{ sessionID := "PT" ++ padStart 4 '0' (toString (nextCounterValue σ)),
           date := d, time := t, location := loc, vehicleID := vid, instructorID := iid,
           maxCount := m, currentCount := 0, status := "pending",
           instructorQualification := body.instructorQualification }] := by
  have hguard : (d == "" || t == "" || loc == "" || vid == "" || iid == "" || m == 0) =
      false := by
    simp [hd', ht', hl', hv', hi', hm']
  have hsid : (getNextSequenceValue "sessionID" σ).1 =
      "PT" ++ padStart 4 '0' (toString (nextCounterValue σ)) := by
    unfold getNextSequenceValue nextCounterValue
    cases h : findCounter σ "sessionID" <;> rfl
  have hsess : (getNextSequenceValue "sessionID" σ).2.sessions = σ.sessions :=
    getNextSequenceValue_sessions "sessionID" σ
  simp only [createPhysicalTraining, hd, ht, hl, hv, hi, hm, hguard, Bool.false_eq_true,
    if_false, hveh, hins]
  rw [hsess, hsid]
  exact ⟨by trivial, by trivial⟩

/-- C8 witness: with the counter at 41, the created session gets
identifier `PT0042`, `currentCount 0` and status `pending`. -/
theorem C8_create_session_witness :
    (createPhysicalTraining body8 store8).1 = respPTCreated ∧
    "PT" ++ padStart 4 '0' (toString (nextCounterValue store8)) = "PT0042" :=
  ⟨(C8_create_session store8 body8 "2025-03-10" "10:00" "Galle" "v1" "i1" 5 veh1 instr1
      rfl (by decide) rfl (by decide) rfl (by decide) rfl (by decide) rfl (by decide)
      rfl (by decide) rfl rfl).1,
   by decide⟩

/-- C9.  A successful register stores `isStudent = true` when the body omits
the field, and the supplied value when it is present. -/
theorem C9_register_isStudent_default (σ : Store) (body : RegisterBody) (uid pw : String)
    (hpw : body.password = some pw)
    (hnew : findUserByEmail σ body.email = none) :
    (register body uid σ).1 = respRegistered ∧
    (register body uid σ).2.1.users.length = σ.users.length + 1 ∧
    (body.isStudent = none →
      ((register body uid σ).2.1.users.getLast?.map User.isStudent) = some true) ∧
    (∀ b, body.isStudent = some b →
      ((register body uid σ).2.1.users.getLast?.map User.isStudent) = some b) := by
  have hne : (findUserByEmail σ body.email).isSome = false := by rw [hnew]; rfl
  simp only [register, hne, Bool.false_eq_true, if_false, hpw]
  refine ⟨by trivial, by simp, ?_, ?_⟩
  · intro h0
    rw [List.getLast?_concat]
    simp [h0]
  · intro b hb
    rw [List.getLast?_concat]
    simp [hb]

/-- C9 witness: registering `regBody9` (isStudent supplied as `false`) and
`regBody7` (isStudent omitted) stores `false` and `true` respectively. -/
theorem C9_register_isStudent_default_witness :
    ((register regBody9 "uid-9" store7).2.1.users.getLast?.map User.isStudent) =
      some false ∧
    ((register regBody7 "uid-1" store7).2.1.users.getLast?.map User.isStudent) =
      some true :=
  ⟨(C9_register_isStudent_default store7 regBody9 "uid-9" "pw9" rfl rfl).2.2.2 false rfl,
   (C9_register_isStudent_default store7 regBody7 "uid-1" "pw" rfl rfl).2.2.1 rfl⟩

/-- C10.  The register duplicate pre-check queries only the email field: a
request with a fresh email succeeds even when its username duplicates an
existing user's, while the rejection branch (taken exactly when the email
matches) reports `User with this email or username already exists`. -/
theorem C10_register_email_precheck :
    (∀ (σ : Store) (body : RegisterBody) (uid pw : String),
      body.password = some pw →
      findUserByEmail σ body.email = none →
      (∃ u ∈ σ.users, u.username = body.username) →
      (register body uid σ).1 = respRegistered ∧
      (register body uid σ).2.1.users.length = σ.users.length + 1) ∧
    (∀ (σ : Store) (body : RegisterBody) (uid : String) (u : User),
      findUserByEmail σ body.email = some u →
      register body uid σ = (respUserExists, σ, none)) ∧
    respUserExists.message = "User with this email or username already exists" := by
  refine ⟨?_, ?_, rfl⟩
  · intro σ body uid pw hpw hnew hdup
    have hne : (findUserByEmail σ body.email).isSome = false := by rw [hnew]; rfl
    simp only [register, hne, Bool.false_eq_true, if_false, hpw]
    exact ⟨by trivial, by simp⟩
  · intro σ body uid u hu
    have hyes : (findUserByEmail σ body.email).isSome = true := by rw [hu]; rfl
    simp only [register, hyes, if_true]

/-- C10 witness: `regBody10` reuses the username `kay` of `user3` in `store3`
but carries a fresh email, and registration succeeds; the duplicate branch
fires on `user3`'s own email. -/
theorem C10_register_email_precheck_witness :
    (register regBody10 "uid-10" store3).1 = respRegistered ∧
    register { regBody10 with email := "kay@ex.com" } "uid-11" store3 =
      (respUserExists, store3, none) :=
  ⟨(C10_register_email_precheck.1 store3 regBody10 "uid-10" "pw10" rfl rfl
      ⟨user3, by decide, rfl⟩).1,
   C10_register_email_precheck.2.1 store3 _ "uid-11" user3 rfl⟩

end DrivingSchool
